import Mathlib

/-!
Shallow embedding of the planventure-api authentication subsystem:
`utils/auth.py` (token issuance and verification), `utils/middleware.py`
(authorization gates and identity resolution) and the JWT error loaders
registered in `app.py`.  Times are modelled as natural-number unix
seconds; a signed token is modelled abstractly as its payload together
with the secret it was signed with, and a structurally malformed wire
string is modelled by the `garbage` constructor carrying the message of
the decode exception it provokes.
-/

namespace Planventure

/-- Account record, from `models/user.py` (`User`): integer primary key
`user_id`, `email_address`, and the `is_active` status flag. -/
structure User where
  user_id : Int
  email_address : String
  is_active : Bool
deriving DecidableEq, Repr

/-- JWT payload claims used by this code base.  `sub` is the JWT subject
(absent in password-reset tokens), `exp` the expiry time, `user_id`,
`email` and `is_active` the additional claims snapshotted at issuance,
and `typ` the `type` claim (`"access"`/`"refresh"` for session tokens
issued through flask-jwt-extended, `"password_reset"` for reset tokens). -/
structure Payload where
  sub : Option String
  exp : Nat
  user_id : Option Int
  email : Option String
  is_active : Option Bool
  typ : Option String
deriving DecidableEq, Repr

/-- Wire token: either a structurally malformed string (decoding raises
an `InvalidTokenError` whose message is carried by the constructor), or a
well-formed HS256-signed token carrying its payload and signing secret. -/
inductive Token where
  | garbage (msg : String)
  | signed (payload : Payload) (secret : String)
deriving DecidableEq, Repr

/-- Outcome classes of `jwt.decode` (PyJWT): `expired` models
`ExpiredSignatureError` (message "Signature has expired"); `invalid msg`
models every other `InvalidTokenError` with its message. -/
inductive JwtError where
  | expired
  | invalid (msg : String)
deriving DecidableEq, Repr

/-- Exception message seen by a Python `str(e)` on the modelled errors. -/
def JwtError.message : JwtError → String
  | .expired => "Signature has expired"
  | .invalid msg => msg

/-- Model of `jwt.encode(payload, secret, algorithm='HS256')`. -/
def jwt_encode (p : Payload) (secret : String) : Token :=
  .signed p secret

/-- Model of `jwt.decode(token, secret, algorithms=['HS256'])` (PyJWT).
PyJWT verifies structure and signature before validating claims, so a
bad signature is reported as invalid even on an expired payload; the
`exp` claim fails once `exp <= now` (zero leeway). -/
def jwt_decode (tok : Token) (secret : String) (now : Nat) : Except JwtError Payload :=
  match tok with
  | .garbage msg => .error (.invalid msg)
  | .signed p s =>
      if s = secret then
        if p.exp ≤ now then .error .expired else .ok p
      else .error (.invalid "Signature verification failed")

/-- Result dictionary of `validate_token` in `utils/auth.py`. -/
structure ValidationResult where
  valid : Bool
  user_id : Option String
  email : Option String
  exp : Option Nat
  error : Option String
deriving DecidableEq, Repr

/-- Model of `validate_token` (`utils/auth.py`): decode with the JWT
secret; on success report the `sub`, `email` and `exp` claims; map
`ExpiredSignatureError` to "Token has expired" and `InvalidTokenError`
to "Invalid token". -/
def validate_token (tok : Token) (jwtSecretKey : String) (now : Nat) : ValidationResult :=
  match jwt_decode tok jwtSecretKey now with
  | .ok p => ⟨true, p.sub, p.email, some p.exp, none⟩
  | .error .expired => ⟨false, none, none, none, some "Token has expired"⟩
  | .error (.invalid _) => ⟨false, none, none, none, some "Invalid token"⟩

/-- Token package returned by `generate_tokens` (`utils/auth.py`). -/
structure TokenPair where
  access_token : Token
  refresh_token : Token
  token_type : String
  expires_in : Nat
deriving DecidableEq, Repr

/-- Model of `generate_tokens` (`utils/auth.py`): the access token
carries `sub = str(user_id)`, a one hour expiry and the additional
claims `user_id`/`email`/`is_active` snapshotted at issuance; the
refresh token carries the same subject with a thirty day expiry.
flask-jwt-extended stamps the `type` claim `"access"`/`"refresh"`. -/
def generate_tokens (u : User) (jwtSecretKey : String) (now : Nat) : TokenPair :=
  { access_token := .signed
      { sub := some (toString u.user_id), exp := now + 3600,
        user_id := some u.user_id, email := some u.email_address,
        is_active := some u.is_active, typ := some "access" } jwtSecretKey,
    refresh_token := .signed
      { sub := some (toString u.user_id), exp := now + 2592000,
        user_id := none, email := none, is_active := none,
        typ := some "refresh" } jwtSecretKey,
    token_type := "Bearer",
    expires_in := 3600 }

/-- Model of `generate_password_reset_token` (`utils/auth.py`): payload
`{user_id, email, exp = now + 1h, type = "password_reset"}`, signed with
the application `SECRET_KEY` (not the JWT secret); no `sub` claim. -/
def generate_password_reset_token (u : User) (secretKey : String) (now : Nat) : Token :=
  .signed
    { sub := none, exp := now + 3600,
      user_id := some u.user_id, email := some u.email_address,
      is_active := none, typ := some "password_reset" } secretKey

/-- Model of `verify_password_reset_token` (`utils/auth.py`): decode with
the application `SECRET_KEY`; on any exception return `None`; on success
return `None` unless the `type` claim equals `"password_reset"`, else
return the `user_id` claim. -/
def verify_password_reset_token (tok : Token) (secretKey : String) (now : Nat) : Option Int :=
  match jwt_decode tok secretKey now with
  | .error _ => none
  | .ok p => if p.typ ≠ some "password_reset" then none else p.user_id

/-- Characters CPython's `int(str)` strips from both ends before
parsing (the `Py_UNICODE_ISSPACE` set): tab through carriage return,
the separator controls 0x1C-0x1F, space, NEL, NBSP, Ogham space mark,
the general punctuation spaces 0x2000-0x200A, line and paragraph
separator, narrow no-break space, medium mathematical space and
ideographic space. -/
def py_space (c : Char) : Bool :=
  decide ((9 ≤ c.toNat ∧ c.toNat ≤ 13) ∨ (28 ≤ c.toNat ∧ c.toNat ≤ 31) ∨
    c.toNat = 32 ∨ c.toNat = 133 ∨ c.toNat = 160 ∨ c.toNat = 5760 ∨
    (8192 ≤ c.toNat ∧ c.toNat ≤ 8202) ∨ c.toNat = 8232 ∨ c.toNat = 8233 ∨
    c.toNat = 8239 ∨ c.toNat = 8287 ∨ c.toNat = 12288)

/-- Digit of the model's numeral alphabet: the ASCII digits.  CPython's
`int()` additionally accepts every Unicode Nd decimal digit; that part
of the alphabet is outside this model, which is why the parse-failure
hypothesis of the C9 theorem is stated over a syntactic class whose
failure under CPython does not depend on any digit table. -/
def py_digit (c : Char) : Bool :=
  c.isDigit

/-- Strip `py_space` characters from both ends of a character list, as
`int()` does before parsing. -/
def py_strip (cs : List Char) : List Char :=
  ((cs.dropWhile py_space).reverse.dropWhile py_space).reverse

/-- Digit run with single-underscore grouping, continued after an
initial digit: `afterUs` records that the previous character was an
underscore, which must be followed by a digit and cannot end the
numeral.  Mirrors the grammar `digit (("_")? digit)*` of a Python
integer literal body. -/
def py_digits_go : List Char → Bool → Nat → Option Nat
  | [], afterUs, acc => if afterUs then none else some acc
  | ch :: rest, afterUs, acc =>
      if py_digit ch then py_digits_go rest false (10 * acc + (ch.toNat - 48))
      else if ch = '_' ∧ afterUs = false then py_digits_go rest true acc
      else none

/-- Parse a nonempty underscore-grouped digit run; `none` on the empty
list or any grammar violation. -/
def py_digits (cs : List Char) : Option Nat :=
  match cs with
  | [] => none
  | ch :: rest =>
      if py_digit ch then py_digits_go rest false (ch.toNat - 48) else none

/-- Model of Python `int(s)` on a string subject: strip surrounding
whitespace, allow one optional sign, then an underscore-grouped digit
run — everything else raises `ValueError`, modelled as `none`.
Whitespace, sign and underscore-grouping follow CPython; the digit
alphabet is restricted to ASCII as documented at `py_digit`. -/
def py_int (s : String) : Option Int :=
  match py_strip s.data with
  | [] => none
  | ch :: rest =>
      if ch = '-' then (py_digits rest).map (fun n => -(n : Int))
      else if ch = '+' then (py_digits rest).map (fun n => (n : Int))
      else (py_digits (ch :: rest)).map (fun n => (n : Int))

/-- Model of `flask_jwt_extended.verify_jwt_in_request()` applied to a
present bearer token: PyJWT decode with the JWT secret, then the
library's post-decode checks — a missing `sub` claim raises
`JWTDecodeError("Missing claim: sub")` and a `type` claim equal to
`"refresh"` raises `WrongTokenError` (default `refresh=False`). -/
def verify_jwt_in_request (tok : Token) (jwtSecretKey : String) (now : Nat) :
    Except JwtError Payload :=
  match jwt_decode tok jwtSecretKey now with
  | .error e => .error e
  | .ok p =>
      if p.sub = none then .error (.invalid "Missing claim: sub")
      else if p.typ = some "refresh" then
        .error (.invalid "Only non-refresh tokens are allowed")
      else .ok p

/-- Request-context state seen by `get_jwt_identity()`: `raising` when
the call raises (no request context / no verified JWT), `verified p`
when a verification ran, `p` being the verified payload if a token was
present (`verified none` is the verified-optional, no-token state). -/
inductive JwtCtx where
  | raising
  | verified (p : Option Payload)
deriving DecidableEq, Repr

/-- Model of `get_current_user` (`utils/middleware.py`): read the JWT
identity (an exception is caught and yields `None`), treat a falsy
identity as unauthenticated, convert the string subject with `int`
(`ValueError` yields `None`), then return the store lookup result as-is
— found users are returned whatever their `is_active` flag, and a missed
lookup returns `None`. -/
def get_current_user (c : JwtCtx) (store : Int → Option User) : Option User :=
  match c with
  | .raising => none
  | .verified none => none
  | .verified (some p) =>
      match p.sub with
      | none => none
      | some s =>
          if s = "" then none
          else
            match py_int s with
            | none => none
            | some uid => store uid

/-- Observable outcome of a gate-wrapped request: either the wrapped
handler runs (carrying the identity `get_current_user` resolves in that
request context), or the request is rejected with an HTTP status and the
`error` field of the JSON body. -/
inductive GateOutcome where
  | handler (identity : Option User)
  | reject (status : Nat) (error : String)
deriving DecidableEq, Repr

/-- Model of the `auth_required(optional=...)` decorator
(`utils/middleware.py`) applied to a request carrying `tok` (the bearer
token, `none` when the `Authorization` header is absent), with `store`
the `User.query.filter_by(user_id=...)` lookup.  The optional flow
swallows every raised exception into "run the handler without identity"
but rejects a resolved inactive account; the required flow maps each
failure to its 401 message, the caught-exception branch formatting
`"Authentication failed: " + str(e)`. -/
def auth_required (optional : Bool) (tok : Option Token) (store : Int → Option User)
    (jwtSecretKey : String) (now : Nat) : GateOutcome :=
  if optional then
    match tok with
    | none => .handler (get_current_user (.verified none) store)
    | some t =>
        match verify_jwt_in_request t jwtSecretKey now with
        | .error _ => .handler (get_current_user .raising store)
        | .ok p =>
            match p.sub with
            | none => .handler (get_current_user (.verified (some p)) store)
            | some s =>
                if s = "" then .handler (get_current_user (.verified (some p)) store)
                else
                  match py_int s with
                  | none => .handler (get_current_user (.verified (some p)) store)
                  | some uid =>
                      match store uid with
                      | none => .handler (get_current_user (.verified (some p)) store)
                      | some u =>
                          if u.is_active then
                            .handler (get_current_user (.verified (some p)) store)
                          else .reject 401 "User account is inactive"
  else
    match tok with
    | none => .reject 401 ("Authentication failed: " ++ "Missing Authorization Header")
    | some t =>
        match verify_jwt_in_request t jwtSecretKey now with
        | .error e => .reject 401 ("Authentication failed: " ++ e.message)
        | .ok p =>
            match p.sub with
            | none => .reject 401 "Invalid token: no user identity"
            | some s =>
                if s = "" then .reject 401 "Invalid token: no user identity"
                else
                  match py_int s with
                  | none => .reject 401 "Invalid user ID format"
                  | some uid =>
                      match store uid with
                      | none => .reject 401 "User not found"
                      | some u =>
                          if u.is_active then
                            .handler (get_current_user (.verified (some p)) store)
                          else .reject 401 "Account is deactivated"

/-- Model of the `require_active_user` decorator (`utils/middleware.py`):
verify the JWT (a raised exception is caught and formatted as
`"Authentication required: " + str(e)`), resolve the user through
`get_current_user`, reject `None` as "User not found", reject an
inactive account, otherwise run the handler. -/
def require_active_user (tok : Option Token) (store : Int → Option User)
    (jwtSecretKey : String) (now : Nat) : GateOutcome :=
  match tok with
  | none => .reject 401 ("Authentication required: " ++ "Missing Authorization Header")
  | some t =>
      match verify_jwt_in_request t jwtSecretKey now with
      | .error e => .reject 401 ("Authentication required: " ++ e.message)
      | .ok p =>
          match get_current_user (.verified (some p)) store with
          | none => .reject 401 "User not found"
          | some u =>
              if u.is_active then .handler (some u)
              else .reject 401 "Account is deactivated"

/-- The `error` field of the response produced by the
`@jwt.unauthorized_loader` callback `missing_token_callback` registered
in `app.py`; it fires only when a missing-token exception propagates to
the Flask app, which the `auth_required` middleware prevents by catching
the exception itself. -/
def missing_token_callback_error : String :=
  "Token required"

/-- Message strings the specification enumerates (section 6) as the only
failure reasons a client may observe.  This list follows the spec's
words, for comparison against the code's actual messages. -/
def spec_enumerated_messages : List String :=
  ["Token has expired", "Token required", "Invalid token",
   "Account is deactivated", "User not found"]

/-! Concrete fixtures used by counterexamples and witnesses. -/

/-- Account identifier 6, active. -/
def user_six_active : User := ⟨6, "a@b.com", true⟩

/-- Account identifier 6, deactivated. -/
def user_six_inactive : User := ⟨6, "a@b.com", false⟩

/-- Store holding only the deactivated account 6. -/
def store_six_inactive : Int → Option User :=
  fun i => if i = 6 then some user_six_inactive else none

/-- Store with no accounts. -/
def empty_store : Int → Option User :=
  fun _ => none

/-- Access-token payload for subject "6" with an `is_active = true`
snapshot, expiring at time 1000. -/
def access_payload_six : Payload :=
  ⟨some "6", 1000, some 6, some "a@b.com", some true, some "access"⟩

/-- Trivial evaluation fact used to discharge the empty-subject case. -/
theorem py_int_empty : py_int "" = none := rfl

/-- Dropping leading whitespace never removes a non-whitespace member. -/
theorem mem_dropWhile_of_not_space (c : Char) :
    ∀ l : List Char, c ∈ l → py_space c = false → c ∈ l.dropWhile py_space := by
  intro l
  induction l with
  | nil => intro h _; exact absurd h (List.not_mem_nil c)
  | cons h t ih =>
      intro hmem hc
      rw [List.dropWhile_cons]
      by_cases hh : py_space h = true
      · rw [if_pos hh]
        rcases List.mem_cons.mp hmem with he | ht
        · subst he; rw [hc] at hh; exact Bool.noConfusion hh
        · exact ih ht hc
      · rw [if_neg hh]
        exact hmem

/-- Stripping surrounding whitespace never removes a non-whitespace
member. -/
theorem mem_py_strip (c : Char) (cs : List Char)
    (hmem : c ∈ cs) (hc : py_space c = false) : c ∈ py_strip cs := by
  unfold py_strip
  exact List.mem_reverse.mpr
    (mem_dropWhile_of_not_space c _
      (List.mem_reverse.mpr (mem_dropWhile_of_not_space c cs hmem hc)) hc)

/-- A digit run containing a character that is neither a digit nor an
underscore cannot parse. -/
theorem py_digits_go_bad :
    ∀ (cs : List Char) (afterUs : Bool) (acc : Nat),
      (∃ c ∈ cs, py_digit c = false ∧ c ≠ '_') →
        py_digits_go cs afterUs acc = none := by
  intro cs
  induction cs with
  | nil =>
      intro afterUs acc hbad
      obtain ⟨c, hc, -⟩ := hbad
      exact absurd hc (List.not_mem_nil c)
  | cons h t ih =>
      intro afterUs acc hbad
      obtain ⟨c, hc, hd, hus⟩ := hbad
      rcases List.mem_cons.mp hc with he | ht
      · subst he
        simp [py_digits_go, hd, hus]
      · by_cases hh : py_digit h = true
        · simp only [py_digits_go, hh, if_true]
          exact ih false _ ⟨c, ht, hd, hus⟩
        · by_cases hu : h = '_' ∧ afterUs = false
          · simp only [py_digits_go, hh, if_false, Bool.false_eq_true, hu, if_true]
            exact ih true _ ⟨c, ht, hd, hus⟩
          · simp [py_digits_go, hh, hu]

/-- A numeral body containing a character that is neither a digit nor
an underscore cannot parse. -/
theorem py_digits_bad (cs : List Char) (c : Char)
    (hmem : c ∈ cs) (hd : py_digit c = false) (hus : c ≠ '_') :
    py_digits cs = none := by
  cases cs with
  | nil => rfl
  | cons h t =>
      rcases List.mem_cons.mp hmem with he | ht
      · subst he
        simp [py_digits, hd]
      · by_cases hh : py_digit h = true
        · simp only [py_digits, hh, if_true]
          exact py_digits_go_bad t false _ ⟨c, ht, hd, hus⟩
        · simp [py_digits, hh]

/-- A string containing a character that is not whitespace, not a
digit, not a sign and not an underscore cannot parse — such a character
survives stripping and invalidates the literal body wherever it sits.
When the character is moreover ASCII, the same argument applies to
CPython's `int()` independently of its wider Unicode digit and
whitespace tables, which is how the C9 theorem uses this lemma. -/
theorem py_int_none_of_nonliteral_char (s : String) (c : Char)
    (hmem : c ∈ s.data) (hsp : py_space c = false) (hd : py_digit c = false)
    (hplus : c ≠ '+') (hminus : c ≠ '-') (hus : c ≠ '_') :
    py_int s = none := by
  have hmem2 : c ∈ py_strip s.data := mem_py_strip c s.data hmem hsp
  unfold py_int
  revert hmem2
  generalize py_strip s.data = L
  intro hmem2
  cases L with
  | nil => exact absurd hmem2 (List.not_mem_nil c)
  | cons h t =>
      by_cases h1 : h = '-'
      · subst h1
        rcases List.mem_cons.mp hmem2 with he | ht
        · exact absurd he hminus
        · simp [py_digits_bad t c ht hd hus]
      · by_cases h2 : h = '+'
        · subst h2
          rcases List.mem_cons.mp hmem2 with he | ht
          · exact absurd he hplus
          · simp [h1, py_digits_bad t c ht hd hus]
        · simp [h1, h2, py_digits_bad (h :: t) c hmem2 hd hus]

/-- Fixed 401 message strings written literally in the body of
`auth_required`'s required flow (`utils/middleware.py`). -/
def middleware_fixed_messages : List String :=
  ["Invalid token: no user identity", "Invalid user ID format",
   "User not found", "Account is deactivated"]

/-- Exception messages the JWT verification layer can raise into the
middleware's catch-all: the missing-header error and the fixed PyJWT /
flask-jwt-extended messages. -/
def library_exception_messages : List String :=
  ["Missing Authorization Header", "Signature has expired",
   "Signature verification failed", "Missing claim: sub",
   "Only non-refresh tokens are allowed"]

/-- Every decode error is the expiry error, the fixed signature-failure
message, or the malformed token's own decode message. -/
theorem jwt_decode_error_sources
    (t : Token) (secret : String) (now : Nat) (e : JwtError)
    (h : jwt_decode t secret now = .error e) :
    e = .expired ∨ e = .invalid "Signature verification failed" ∨
      ∃ g, t = .garbage g ∧ e = .invalid g := by
  unfold jwt_decode at h
  split at h
  · rename_i msg
    simp only [Except.error.injEq] at h
    exact Or.inr (Or.inr ⟨msg, rfl, h.symm⟩)
  · rename_i p s
    split at h
    · split at h
      · simp only [Except.error.injEq] at h
        exact Or.inl h.symm
      · exact Except.noConfusion h
    · simp only [Except.error.injEq] at h
      exact Or.inr (Or.inl h.symm)

/-- Every exception message raised by the modelled
`verify_jwt_in_request` on a present token is a fixed library string or
the malformed token's own decode message. -/
theorem verify_jwt_error_message_sources
    (t : Token) (secret : String) (now : Nat) (e : JwtError)
    (h : verify_jwt_in_request t secret now = .error e) :
    e.message ∈ library_exception_messages ∨ ∃ g, t = .garbage g ∧ e.message = g := by
  unfold verify_jwt_in_request at h
  split at h
  · rename_i e0 heq
    simp only [Except.error.injEq] at h
    subst h
    rcases jwt_decode_error_sources t secret now e0 heq with h1 | h1 | ⟨g, hg, h1⟩
    · subst h1; exact Or.inl (by decide)
    · subst h1; exact Or.inl (by decide)
    · subst h1; exact Or.inr ⟨g, hg, rfl⟩
  · rename_i p heq
    split at h
    · simp only [Except.error.injEq] at h
      subst h; exact Or.inl (by decide)
    · split at h
      · simp only [Except.error.injEq] at h
        subst h; exact Or.inl (by decide)
      · exact Except.noConfusion h

/-! Claim theorems. -/

/-- C1 (counterexample): under the Optional policy, a request carrying a
well-signed unexpired token whose subject resolves to the deactivated
account 6 is rejected with 401 "User account is inactive" — the handler
is not invoked, refuting "optional authentication never blocks". -/
theorem c1_optional_inactive_rejected_counterexample :
    auth_required true (some (.signed access_payload_six "k")) store_six_inactive "k" 0
      = .reject 401 "User account is inactive" := by decide

/-- C1 (amended): under the Optional policy every failing credential —
malformed, expired, wrong type, unparseable subject, unknown account —
still reaches the wrapped handler with no identity; the sole exception
is a token that verifies and resolves to an account whose live
`is_active` flag is false, which is rejected with 401 "User account is
inactive".  Formally: every Optional-path rejection is that one. -/
theorem c1_optional_blocks_only_inactive_account
    (tok : Option Token) (store : Int → Option User) (secret : String) (now : Nat)
    (st : Nat) (m : String)
    (h : auth_required true tok store secret now = .reject st m) :
    st = 401 ∧ m = "User account is inactive" ∧
      ∃ t p s uid u, tok = some t ∧ verify_jwt_in_request t secret now = .ok p ∧
        p.sub = some s ∧ py_int s = some uid ∧ store uid = some u ∧
        u.is_active = false := by
  unfold auth_required at h
  rw [if_pos rfl] at h
  repeat' split at h
  all_goals try (exact GateOutcome.noConfusion h)
  simp only [GateOutcome.reject.injEq] at h
  obtain ⟨h1, h2⟩ := h
  subst h1
  subst h2
  simp_all

/-- C1 (witness): the amended characterization instantiated at the
inactive-account request, the hypothesis discharged by evaluation. -/
theorem c1_optional_blocks_only_inactive_account_witness :
    (401 : Nat) = 401 ∧ ("User account is inactive" : String) = "User account is inactive" ∧
      ∃ t p s uid u,
        (some (Token.signed access_payload_six "k") : Option Token) = some t ∧
        verify_jwt_in_request t "k" 0 = .ok p ∧ p.sub = some s ∧
        py_int s = some uid ∧ store_six_inactive uid = some u ∧
        u.is_active = false :=
  c1_optional_blocks_only_inactive_account (some (.signed access_payload_six "k"))
    store_six_inactive "k" 0 401 "User account is inactive" (by decide)

/-- C2 (counterexample): under the Required policy a request with no
bearer credential is rejected with 401 and the body error "Authentication
failed: Missing Authorization Header", not "Token required" — the
middleware catches the library's missing-header exception before the
`unauthorized_loader` registered in `app.py` can produce the
"Token required" body. -/
theorem c2_missing_token_message_counterexample :
    auth_required false none empty_store "k" 0
        = .reject 401 "Authentication failed: Missing Authorization Header" ∧
      ("Authentication failed: Missing Authorization Header" : String)
        ≠ missing_token_callback_error :=
  ⟨by decide, by decide⟩

/-- C2 (amended): under the Required policy every request with no bearer
credential is rejected with HTTP 401, but the body is "Authentication
failed: Missing Authorization Header" — the absence is detected by the
exception the invoked verifier wrapper raises, which the middleware's
catch-all formats; the app-level "Token required" loader is bypassed. -/
theorem c2_missing_token_catchall_response
    (store : Int → Option User) (secret : String) (now : Nat) :
    auth_required false none store secret now
        = .reject 401 ("Authentication failed: " ++ "Missing Authorization Header") ∧
      "Authentication failed: " ++ "Missing Authorization Header"
        ≠ missing_token_callback_error :=
  ⟨rfl, by decide⟩

/-- C3 (counterexample): presenting an expired well-signed token under
the Required policy yields the failure body "Authentication failed:
Signature has expired" — a message outside the spec's enumerated set
that embeds the internal library exception text verbatim. -/
theorem c3_internal_exception_text_leaks_counterexample :
    auth_required false
        (some (.signed ⟨some "6", 50, none, none, none, some "access"⟩ "k"))
        empty_store "k" 100
        = .reject 401 "Authentication failed: Signature has expired" ∧
      ("Authentication failed: Signature has expired" : String)
        ∉ spec_enumerated_messages :=
  ⟨by decide, by decide⟩

/-- C3 (amended): every Required-policy rejection body is either one of
the four fixed middleware strings or "Authentication failed: " followed
by the caught exception's message, and that message is in turn a fixed
library string or text carried by the malformed token itself — in no
case is the signing secret or any stack state part of the body, but the
catch-all branches do embed the internal exception message, so the
bodies are not confined to the spec's enumerated strings. -/
theorem c3_required_rejection_messages_characterized
    (tok : Option Token) (store : Int → Option User) (secret : String) (now : Nat)
    (st : Nat) (m : String)
    (h : auth_required false tok store secret now = .reject st m) :
    st = 401 ∧
      (m ∈ middleware_fixed_messages ∨
       ∃ e, m = "Authentication failed: " ++ e ∧
         (e ∈ library_exception_messages ∨
          ∃ g, tok = some (.garbage g) ∧ e = g)) := by
  unfold auth_required at h
  rw [if_neg Bool.false_ne_true] at h
  repeat' split at h
  all_goals try (exact GateOutcome.noConfusion h)
  all_goals
    simp only [GateOutcome.reject.injEq] at h
  all_goals obtain ⟨h1, h2⟩ := h
  all_goals subst h1
  all_goals subst h2
  all_goals first
    | exact ⟨rfl, Or.inl (by decide)⟩
    | exact ⟨rfl, Or.inr ⟨"Missing Authorization Header", rfl, Or.inl (by decide)⟩⟩
    | (rename_i t0 x0 e0 hv0
       rcases verify_jwt_error_message_sources t0 secret now e0 hv0 with hm | ⟨g, hg, hmg⟩
       · exact ⟨rfl, Or.inr ⟨e0.message, rfl, Or.inl hm⟩⟩
       · exact ⟨rfl, Or.inr ⟨e0.message, rfl, Or.inr ⟨g, by rw [hg], hmg⟩⟩⟩)

/-- C3 (witness): the characterization instantiated at the
expired-token request, the hypothesis discharged by evaluation. -/
theorem c3_required_rejection_messages_characterized_witness :
    (401 : Nat) = 401 ∧
      (("Authentication failed: Signature has expired" : String)
          ∈ middleware_fixed_messages ∨
       ∃ e, ("Authentication failed: Signature has expired" : String)
            = "Authentication failed: " ++ e ∧
         (e ∈ library_exception_messages ∨
          ∃ g, (some (Token.signed ⟨some "6", 50, none, none, none, some "access"⟩ "k")
                  : Option Token) = some (.garbage g) ∧ e = g)) :=
  c3_required_rejection_messages_characterized
    (some (.signed ⟨some "6", 50, none, none, none, some "access"⟩ "k"))
    empty_store "k" 100 401 "Authentication failed: Signature has expired" (by decide)

/-- C4 (counterexample): with both token classes signed with the same
secret "k", a freshly issued, unexpired password-reset token presented
to the session verifier `validate_token` is accepted (`valid = true`),
not rejected — `validate_token` performs no `type` check. -/
theorem c4_reset_token_accepted_by_session_verifier :
    (validate_token (generate_password_reset_token user_six_active "k" 0) "k" 10).valid
      = true := by decide

/-- C4 (amended): one direction of cross-class rejection does hold
unconditionally: whenever the reset verifier's decode succeeds — same
secret or not, expiry valid — a payload whose `type` claim is not
`"password_reset"` is rejected (`None`); in particular every session
token is. The converse direction fails at `validate_token`, which
accepts a reset token when the two signing secrets coincide. -/
theorem c4_reset_verifier_type_check_unconditional
    (tok : Token) (secretKey : String) (now : Nat) (p : Payload)
    (hdec : jwt_decode tok secretKey now = .ok p)
    (htyp : p.typ ≠ some "password_reset") :
    verify_password_reset_token tok secretKey now = none := by
  unfold verify_password_reset_token
  rw [hdec]
  simp [htyp]

/-- C4 (witness): the session access token issued for account 6, decoded
by the reset verifier under the same secret within its lifetime, is
rejected. -/
theorem c4_reset_verifier_type_check_unconditional_witness :
    verify_password_reset_token (generate_tokens user_six_active "k" 0).access_token
      "k" 10 = none :=
  c4_reset_verifier_type_check_unconditional
    (generate_tokens user_six_active "k" 0).access_token "k" 10
    ⟨some (toString user_six_active.user_id), 3600, some 6, some "a@b.com",
      some true, some "access"⟩
    rfl (by decide)

/-- C6 (counterexample): a token whose expiry (5) is strictly past at
time 10 but which is signed with secret "a" and verified under secret
"b" fails `validate_token` with the Malformed reason "Invalid token",
not the Expired reason — PyJWT checks the signature before the `exp`
claim. -/
theorem c6_expired_wrong_signature_reports_invalid :
    (validate_token (.signed ⟨some "6", 5, none, none, none, some "access"⟩ "a")
        "b" 10).error = some "Invalid token" ∧ 5 < 10 :=
  ⟨by decide, by decide⟩

/-- C6 (amended): for every token signed with the verification secret,
once the current time is strictly past `exp` the session verifier fails
with "Token has expired" and never with "Invalid token". -/
theorem c6_expired_wellsigned_token_reports_expired
    (p : Payload) (secret : String) (now : Nat) (hexp : p.exp < now) :
    validate_token (.signed p secret) secret now
      = ⟨false, none, none, none, some "Token has expired"⟩ := by
  unfold validate_token jwt_decode
  simp [Nat.le_of_lt hexp]

/-- C6 (witness): the amended statement evaluated on a concrete token
expiring at 5, verified at time 10 under its own secret. -/
theorem c6_expired_wellsigned_token_reports_expired_witness :
    validate_token (.signed ⟨some "6", 5, none, none, none, some "access"⟩ "k") "k" 10
      = ⟨false, none, none, none, some "Token has expired"⟩ :=
  c6_expired_wellsigned_token_reports_expired
    ⟨some "6", 5, none, none, none, some "access"⟩ "k" 10 (by decide)

/-- C7: within the access-token TTL window, validating the access token
of the pair issued by `generate_tokens` succeeds and the extracted
subject equals the string form of the identity's numeric identifier. -/
theorem c7_session_pair_access_token_roundtrip
    (u : User) (secret : String) (issuedAt now : Nat)
    (httl : now < issuedAt + 3600) :
    (validate_token (generate_tokens u secret issuedAt).access_token secret now).valid
        = true ∧
      (validate_token (generate_tokens u secret issuedAt).access_token secret now).user_id
        = some (toString u.user_id) := by
  unfold generate_tokens validate_token jwt_decode
  simp [Nat.not_le.mpr httl]

/-- C7 (witness): the round trip evaluated for account 6, issuance time
0 and verification time 100. -/
theorem c7_session_pair_access_token_roundtrip_witness :
    (validate_token (generate_tokens user_six_active "k" 0).access_token "k" 100).valid
        = true ∧
      (validate_token (generate_tokens user_six_active "k" 0).access_token "k" 100).user_id
        = some (toString user_six_active.user_id) :=
  c7_session_pair_access_token_roundtrip user_six_active "k" 0 100 (by decide)

/-- C8: decoding the encoding of any payload under the same secret while
the claims are live yields the original payload; decoding under any
different secret always fails as a signature failure, which
`validate_token` reports with the Malformed reason "Invalid token". -/
theorem c8_codec_roundtrip_and_key_separation
    (p : Payload) (s₁ s₂ : String) (now : Nat)
    (hlive : now < p.exp) (hne : s₁ ≠ s₂) :
    jwt_decode (jwt_encode p s₁) s₁ now = .ok p ∧
      jwt_decode (jwt_encode p s₁) s₂ now
        = .error (.invalid "Signature verification failed") ∧
      (validate_token (jwt_encode p s₁) s₂ now).error = some "Invalid token" := by
  refine ⟨?_, ?_, ?_⟩
  · unfold jwt_encode jwt_decode
    simp [Nat.not_le.mpr hlive]
  · unfold jwt_encode jwt_decode
    simp [hne]
  · unfold validate_token jwt_encode jwt_decode
    simp [hne]

/-- C8 (witness): the codec laws evaluated on the concrete access
payload for account 6, secrets "k" and "m", at time 0. -/
theorem c8_codec_roundtrip_and_key_separation_witness :
    jwt_decode (jwt_encode access_payload_six "k") "k" 0 = .ok access_payload_six ∧
      jwt_decode (jwt_encode access_payload_six "k") "m" 0
        = .error (.invalid "Signature verification failed") ∧
      (validate_token (jwt_encode access_payload_six "k") "m" 0).error
        = some "Invalid token" :=
  c8_codec_roundtrip_and_key_separation access_payload_six "k" "m" 0
    (by decide) (by decide)

/-- C5: under both the Required gate and the Active-user gate, a request
bearing a still-unexpired, well-signed token whose subject resolves to
an account whose live `is_active` flag is false is rejected with 401
"Account is deactivated".  The token payload `p` — in particular its
embedded `is_active` snapshot — is universally quantified, so the
decision depends only on the store's live flag, never on the snapshot. -/
theorem c5_deactivated_account_rejected_live
    (p : Payload) (secret : String) (store : Int → Option User) (now : Nat)
    (s : String) (uid : Int) (u : User)
    (hexp : now < p.exp) (htyp : p.typ ≠ some "refresh")
    (hsub : p.sub = some s) (hparse : py_int s = some uid)
    (hstore : store uid = some u) (hinactive : u.is_active = false) :
    auth_required false (some (.signed p secret)) store secret now
        = .reject 401 "Account is deactivated" ∧
      require_active_user (some (.signed p secret)) store secret now
        = .reject 401 "Account is deactivated" := by
  have hse : ¬s = "" := by
    intro he
    rw [he, py_int_empty] at hparse
    exact Option.noConfusion hparse
  have hv : verify_jwt_in_request (.signed p secret) secret now = .ok p := by
    unfold verify_jwt_in_request jwt_decode
    simp [Nat.not_le.mpr hexp, hsub, htyp]
  have hg : get_current_user (.verified (some p)) store = some u := by
    simp [get_current_user, hsub, hse, hparse, hstore]
  constructor
  · simp [auth_required, hv, hsub, hse, hparse, hstore, hinactive]
  · simp [require_active_user, hv, hg, hinactive]

/-- C5 (witness): scenario C of the spec — the token for account 6
carries an `is_active = true` snapshot, the store says the account is
now deactivated, and both gates reject with "Account is deactivated" at
time 0, well before the expiry 1000. -/
theorem c5_deactivated_account_rejected_live_witness :
    auth_required false (some (.signed access_payload_six "k")) store_six_inactive "k" 0
        = .reject 401 "Account is deactivated" ∧
      require_active_user (some (.signed access_payload_six "k")) store_six_inactive "k" 0
        = .reject 401 "Account is deactivated" :=
  c5_deactivated_account_rejected_live access_payload_six "k" store_six_inactive 0
    "6" 6 user_six_inactive (by decide) (by decide) rfl (by decide) (by decide) rfl

/-- C9 (counterexample): a verified token with the unparseable subject
"abc" under the Required gate is rejected with 401 "Invalid user ID
format" — a message distinct from the NotFound outcome's "User not
found", which the same gate produces for the parseable-but-unknown
subject "7" against the same empty store.  The claim's "resolution fails
with the NotFound outcome" is therefore false for the Required gate. -/
theorem c9_parse_failure_not_notfound_counterexample :
    auth_required false
        (some (.signed ⟨some "abc", 1000, none, none, none, some "access"⟩ "k"))
        empty_store "k" 0 = .reject 401 "Invalid user ID format" ∧
      auth_required false
        (some (.signed ⟨some "7", 1000, none, none, none, some "access"⟩ "k"))
        empty_store "k" 0 = .reject 401 "User not found" ∧
      ("Invalid user ID format" : String) ≠ "User not found" :=
  ⟨by decide, by decide, by decide⟩

/-- C9 (amended): a subject that cannot be parsed to the integer
identifier type never escapes as a crash: the resolver
`get_current_user` maps it to `None` (the same value as an unknown
account), and the Active-user gate consequently reports 401 "User not
found"; the Required gate however reports it with a controlled message
of its own that is distinct from the NotFound message — 401 "Invalid
token: no user identity" when the subject is the falsy empty string,
401 "Invalid user ID format" otherwise.  The theorem quantifies over
the subjects that are empty or contain an ASCII character that can
occur in no integer literal (not a digit, sign, underscore or
whitespace); every string of this class is unparseable both in the
model and under CPython's `int()`, whatever wider Unicode digit
alphabet the latter accepts. -/
theorem c9_unparseable_subject_handled
    (p : Payload) (secret : String) (store : Int → Option User) (now : Nat)
    (s : String)
    (hexp : now < p.exp) (htyp : p.typ ≠ some "refresh")
    (hsub : p.sub = some s)
    (hbad : s = "" ∨ ∃ c ∈ s.data, c.toNat < 128 ∧ py_space c = false ∧
        py_digit c = false ∧ c ≠ '+' ∧ c ≠ '-' ∧ c ≠ '_') :
    get_current_user (.verified (some p)) store = none ∧
      require_active_user (some (.signed p secret)) store secret now
        = .reject 401 "User not found" ∧
      auth_required false (some (.signed p secret)) store secret now
        = .reject 401 (if s = "" then "Invalid token: no user identity"
                       else "Invalid user ID format") := by
  have hv : verify_jwt_in_request (.signed p secret) secret now = .ok p := by
    unfold verify_jwt_in_request jwt_decode
    simp [Nat.not_le.mpr hexp, hsub, htyp]
  rcases hbad with hemp | ⟨c, hc, hval, hsp, hd, hplus, hminus, hus⟩
  · subst hemp
    have hg : get_current_user (.verified (some p)) store = none := by
      simp [get_current_user, hsub]
    refine ⟨hg, ?_, ?_⟩
    · simp [require_active_user, hv, hg]
    · simp [auth_required, hv, hsub]
  · have hse : ¬s = "" := by
      intro he
      subst he
      have hnil : ("" : String).data = [] := rfl
      rw [hnil] at hc
      exact absurd hc (List.not_mem_nil c)
    have hparse : py_int s = none :=
      py_int_none_of_nonliteral_char s c hc hsp hd hplus hminus hus
    have hg : get_current_user (.verified (some p)) store = none := by
      simp [get_current_user, hsub, hse, hparse]
    refine ⟨hg, ?_, ?_⟩
    · simp [require_active_user, hv, hg]
    · simp [auth_required, hv, hsub, hse, hparse]

/-- C9 (witness): the amended statement evaluated on the concrete
subject "abc" (whose character 'a' is ASCII and can occur in no integer
literal) against the empty store. -/
theorem c9_unparseable_subject_handled_witness :
    get_current_user
        (.verified (some ⟨some "abc", 1000, none, none, none, some "access"⟩))
        empty_store = none ∧
      require_active_user
        (some (.signed ⟨some "abc", 1000, none, none, none, some "access"⟩ "k"))
        empty_store "k" 0 = .reject 401 "User not found" ∧
      auth_required false
        (some (.signed ⟨some "abc", 1000, none, none, none, some "access"⟩ "k"))
        empty_store "k" 0
        = .reject 401 (if ("abc" : String) = "" then "Invalid token: no user identity"
                       else "Invalid user ID format") :=
  c9_unparseable_subject_handled
    ⟨some "abc", 1000, none, none, none, some "access"⟩ "k" empty_store 0 "abc"
    (by decide) (by decide) rfl
    (Or.inr ⟨'a', by decide, by decide, by decide, by decide, by decide,
      by decide, by decide⟩)

/-- C10: the identity accessor is total and unfiltered — an exception
inside the accessor is caught and yields `None` for every store, and
whenever the subject parses and the store lookup finds an account the
accessor returns that account with no condition on its `is_active` flag
(the active-status check is left entirely to the wrapping policy). -/
theorem c10_get_current_user_total_unfiltered :
    (∀ store : Int → Option User, get_current_user .raising store = none) ∧
      ∀ (p : Payload) (store : Int → Option User) (s : String) (uid : Int) (u : User),
        p.sub = some s → py_int s = some uid → store uid = some u →
          get_current_user (.verified (some p)) store = some u := by
  refine ⟨fun _ => rfl, ?_⟩
  intro p store s uid u hsub hparse hstore
  have hse : ¬s = "" := by
    intro he
    rw [he, py_int_empty] at hparse
    exact Option.noConfusion hparse
  simp [get_current_user, hsub, hse, hparse, hstore]

/-- C10 (witness): the accessor applied to the verified payload for
subject "6" over a store holding only the deactivated account 6 returns
that account record even though `is_active` is false. -/
theorem c10_get_current_user_total_unfiltered_witness :
    get_current_user (.verified (some access_payload_six)) store_six_inactive
      = some user_six_inactive :=
  c10_get_current_user_total_unfiltered.2 access_payload_six store_six_inactive
    "6" 6 user_six_inactive rfl (by decide) (by decide)

end Planventure
